import Mathlib

/-!
Shallow embedding of the Kanban board component (types.ts, KanbanBoard.tsx,
AddTaskModal.tsx, TaskModal.tsx) and proofs about its derived-view engine,
drag-end controller and modal submit/update paths.

Conventions of the embedding:
* TS string union types become inductives; `Status.id` recovers the string
  value carried at runtime.
* JS `Date` timestamps are modelled as `Nat`; JS `number` (hours) as `Rat`.
* TS optional fields (`assignee?`, `estimate?`, ...) become `Option`.
* JS truthiness on a string-or-undefined value (`!task.assignee`) is modelled
  explicitly: both `none` and `some ""` are falsy.
* `String.prototype.includes` after `toLowerCase` is modelled by an explicit
  character-list infix check on lowered strings.
-/

namespace Kanban

/-- `type Status = 'todo' | 'in-progress' | 'in-review' | 'done'` -/
inductive Status where
  | todo
  | inProgress
  | inReview
  | done
deriving DecidableEq, Repr

/-- The runtime string value of a `Status` (TS statuses are strings). -/
def Status.id : Status → String
  | .todo => "todo"
  | .inProgress => "in-progress"
  | .inReview => "in-review"
  | .done => "done"

/-- `type Priority = 'lowest' | 'low' | 'medium' | 'high' | 'highest'` -/
inductive Priority where
  | lowest
  | low
  | medium
  | high
  | highest
deriving DecidableEq, Repr

/-- `type IssueType = 'task' | 'bug' | 'story' | 'epic'` -/
inductive IssueType where
  | task
  | bug
  | story
  | epic
deriving DecidableEq, Repr

/-- `interface Label { id; name; color }` -/
structure Label where
  id : String
  name : String
  color : String
deriving DecidableEq, Repr

/-- `interface Comment { id; author; content; timestamp }` -/
structure Comment where
  id : String
  author : String
  content : String
  timestamp : Nat
deriving DecidableEq, Repr

/-- `interface Task` from types.ts. -/
structure Task where
  id : String
  title : String
  description : String
  status : Status
  priority : Priority
  type : IssueType
  assignee : Option String
  reporter : String
  labels : List Label
  comments : List Comment
  createdAt : Nat
  updatedAt : Nat
  estimate : Option Rat
  timeSpent : Option Rat
  dueDate : Option Nat
deriving DecidableEq, Repr

/-- A configured board column `{ id: Status; title: string }`. -/
structure ColumnDef where
  id : Status
  title : String
deriving DecidableEq, Repr

/-- The default four-column set declared at the top of KanbanBoard.tsx. -/
def columns : List ColumnDef :=
  [⟨Status.todo, "To Do"⟩, ⟨Status.inProgress, "In Progress"⟩,
   ⟨Status.inReview, "In Review"⟩, ⟨Status.done, "Done"⟩]

/-- `const boardColumns = customColumns || columns`. -/
def boardColumns (customColumns : Option (List ColumnDef)) : List ColumnDef :=
  customColumns.getD columns

/-- Character-list prefix test (building block for the substring check). -/
def isPrefixList : List Char → List Char → Bool
  | [], _ => true
  | _ :: _, [] => false
  | a :: as, b :: bs => decide (a = b) && isPrefixList as bs

/-- Character-list contiguous-infix test. -/
def isInfixList (needle : List Char) : List Char → Bool
  | [] => isPrefixList needle []
  | b :: bs => isPrefixList needle (b :: bs) || isInfixList needle bs

/-- `s.toLowerCase()` modelled on the character list of the string. -/
def lowerChars (s : String) : List Char :=
  s.toList.map Char.toLower

/-- Drop leading and trailing whitespace from a character list. -/
def trimChars (l : List Char) : List Char :=
  ((l.dropWhile Char.isWhitespace).reverse.dropWhile Char.isWhitespace).reverse

/-- `s.trim()` (String.prototype.trim) modelled on the character list. -/
def jsTrim (s : String) : String :=
  String.mk (trimChars s.data)

/-- `hay.toLowerCase().includes(q.toLowerCase())` from the search predicate. -/
def containsCI (hay q : String) : Bool :=
  isInfixList (lowerChars q) (lowerChars hay)

/-- The component-local filter selections (useState hooks in KanbanBoard):
`searchQuery`, `filterPriority` (`none` is the `'all'` selector),
`filterType` (`none` is `'all'`), and `filterAssignee` which stays a raw
string (`"all"`, `"unassigned"`, or an assignee name) as in the source. -/
structure FilterState where
  searchQuery : String
  filterPriority : Option Priority
  filterType : Option IssueType
  filterAssignee : String
deriving DecidableEq, Repr

/-- JS truthiness of `task.assignee`: `!task.assignee` is true when the field
is `undefined` or the empty string. -/
def assigneeFalsy (t : Task) : Bool :=
  match t.assignee with
  | none => true
  | some a => decide (a = "")

/-- `matchesSearch` clause of the filter in KanbanBoard.tsx. -/
def matchesSearch (enableSearch : Bool) (searchQuery : String) (t : Task) : Bool :=
  !enableSearch ||
    containsCI t.title searchQuery ||
    containsCI t.description searchQuery ||
    containsCI t.id searchQuery

/-- `matchesPriority` clause: `!enableFilters || filterPriority === 'all' ||
task.priority === filterPriority`. -/
def matchesPriority (enableFilters : Bool) (filterPriority : Option Priority)
    (t : Task) : Bool :=
  !enableFilters || filterPriority.isNone ||
    decide (some t.priority = filterPriority)

/-- `matchesType` clause. -/
def matchesType (enableFilters : Bool) (filterType : Option IssueType)
    (t : Task) : Bool :=
  !enableFilters || filterType.isNone ||
    decide (some t.type = filterType)

/-- `matchesAssignee` clause: `!enableFilters || filterAssignee === 'all' ||
(filterAssignee === 'unassigned' && !task.assignee) ||
task.assignee === filterAssignee`. -/
def matchesAssignee (enableFilters : Bool) (filterAssignee : String)
    (t : Task) : Bool :=
  !enableFilters || decide (filterAssignee = "all") ||
    (decide (filterAssignee = "unassigned") && assigneeFalsy t) ||
    decide (t.assignee = some filterAssignee)

/-- The `filteredTasks` memo of KanbanBoard.tsx: `tasks.filter(...)` with the
four conjoined clauses. -/
def filteredTasks (enableSearch enableFilters : Bool) (fs : FilterState)
    (tasks : List Task) : List Task :=
  tasks.filter fun t =>
    matchesSearch enableSearch fs.searchQuery t &&
    matchesPriority enableFilters fs.filterPriority t &&
    matchesType enableFilters fs.filterType t &&
    matchesAssignee enableFilters fs.filterAssignee t

/-- The inclusion predicate exactly as claim C1 words it: the assignee clause
admits a task only when the selector is "all", or the selector is
"unassigned" and `task.assignee` is absent, or `task.assignee` equals the
selector. -/
def specFilterPred (enableSearch enableFilters : Bool) (fs : FilterState)
    (t : Task) : Bool :=
  (!enableSearch || decide (fs.searchQuery = "") ||
      containsCI t.title fs.searchQuery ||
      containsCI t.description fs.searchQuery ||
      containsCI t.id fs.searchQuery) &&
  (!enableFilters || fs.filterPriority.isNone ||
      decide (some t.priority = fs.filterPriority)) &&
  (!enableFilters || fs.filterType.isNone ||
      decide (some t.type = fs.filterType)) &&
  (!enableFilters || decide (fs.filterAssignee = "all") ||
      (decide (fs.filterAssignee = "unassigned") && decide (t.assignee = none)) ||
      decide (t.assignee = some fs.filterAssignee))

/-- The amended inclusion predicate: identical to `specFilterPred` except
that in the "unassigned" disjunct the task counts as unassigned when
`task.assignee` is absent OR the empty string (the JS truthiness the code
actually applies). -/
def specFilterPredAmended (enableSearch enableFilters : Bool) (fs : FilterState)
    (t : Task) : Bool :=
  (!enableSearch || decide (fs.searchQuery = "") ||
      containsCI t.title fs.searchQuery ||
      containsCI t.description fs.searchQuery ||
      containsCI t.id fs.searchQuery) &&
  (!enableFilters || fs.filterPriority.isNone ||
      decide (some t.priority = fs.filterPriority)) &&
  (!enableFilters || fs.filterType.isNone ||
      decide (some t.type = fs.filterType)) &&
  (!enableFilters || decide (fs.filterAssignee = "all") ||
      (decide (fs.filterAssignee = "unassigned") && assigneeFalsy t) ||
      decide (t.assignee = some fs.filterAssignee))

lemma isInfixList_nil (l : List Char) : isInfixList [] l = true := by
  induction l with
  | nil => rfl
  | cons b bs ih => simp [isInfixList, isPrefixList, ih]

lemma containsCI_empty (s : String) : containsCI s "" = true := by
  have h : lowerChars "" = [] := by decide
  simp [containsCI, h, isInfixList_nil]

lemma matchesSearch_eq_spec (e : Bool) (q : String) (t : Task) :
    matchesSearch e q t =
      (!e || decide (q = "") || containsCI t.title q ||
        containsCI t.description q || containsCI t.id q) := by
  by_cases hq : q = ""
  · subst hq
    simp [matchesSearch, containsCI_empty]
  · simp [matchesSearch, hq]

/-- The `grouped` record of the `tasksByStatus` memo: one list per status,
all four keys initialised to the empty array. -/
structure Grouped where
  todo : List Task
  inProgress : List Task
  inReview : List Task
  done : List Task
deriving DecidableEq, Repr

/-- Indexing `grouped[s]` for a status key `s`. -/
def Grouped.get (g : Grouped) : Status → List Task
  | .todo => g.todo
  | .inProgress => g.inProgress
  | .inReview => g.inReview
  | .done => g.done

/-- Sum of the four group sizes. -/
def Grouped.total (g : Grouped) : Nat :=
  g.todo.length + g.inProgress.length + g.inReview.length + g.done.length

/-- One step of the `filteredTasks.forEach` loop:
`if (grouped[task.status]) grouped[task.status].push(task)`. The guard is
always true in the embedding because the record literal initialises every
`Status` key to an (empty, hence present) array, exactly as the source
does. -/
def pushTask (g : Grouped) (t : Task) : Grouped :=
  match t.status with
  | .todo => { g with todo := g.todo ++ [t] }
  | .inProgress => { g with inProgress := g.inProgress ++ [t] }
  | .inReview => { g with inReview := g.inReview ++ [t] }
  | .done => { g with done := g.done ++ [t] }

/-- The `tasksByStatus` memo of KanbanBoard.tsx: start from the literal with
the four fixed status keys and push every filtered task onto the list of its
own status. Note the configured columns are not consulted. -/
def tasksByStatus (filtered : List Task) : Grouped :=
  filtered.foldl pushTask ⟨[], [], [], []⟩

lemma get_pushTask (g : Grouped) (t : Task) (s : Status) :
    (pushTask g t).get s =
      if t.status = s then g.get s ++ [t] else g.get s := by
  cases h : t.status <;> cases s <;>
    simp [pushTask, Grouped.get, h]

lemma get_foldl_pushTask (l : List Task) (g : Grouped) (s : Status) :
    (l.foldl pushTask g).get s =
      g.get s ++ l.filter (fun t => decide (t.status = s)) := by
  induction l generalizing g with
  | nil => simp
  | cons t l ih =>
      rw [List.foldl_cons, ih, get_pushTask]
      by_cases h : t.status = s
      · simp [h, List.filter_cons]
      · simp [h, List.filter_cons]

lemma total_pushTask (g : Grouped) (t : Task) :
    (pushTask g t).total = g.total + 1 := by
  cases h : t.status <;>
    simp [pushTask, Grouped.total, h] <;> omega

lemma total_foldl_pushTask (l : List Task) (g : Grouped) :
    (l.foldl pushTask g).total = g.total + l.length := by
  induction l generalizing g with
  | nil => simp
  | cons t l ih =>
      rw [List.foldl_cons, ih, total_pushTask]
      simp [Nat.add_comm, Nat.add_assoc, Nat.add_left_comm]

/-- The `validStatuses` array hard-coded in `handleDragEnd`. -/
def validStatuses : List Status :=
  [Status.todo, Status.inProgress, Status.inReview, Status.done]

/-- `validStatuses.includes(over.id)` followed by the `over.id as Status`
cast: find the fixed status whose string value is the drop id. -/
def statusOfId? (overId : String) : Option Status :=
  validStatuses.find? (fun s => decide (s.id = overId))

/-- The arguments of one `onTaskMove(taskId, newStatus, oldStatus)` call. -/
structure MoveCall where
  taskId : String
  newStatus : Status
  oldStatus : Status
deriving DecidableEq, Repr

/-- A dnd-kit drag-end event: `active.id`, and `over` which is null when the
drag finished outside every droppable. -/
structure DragEndEvent where
  activeId : String
  overId : Option String
deriving DecidableEq, Repr

/-- The component state relevant to the drag controller: the `tasks` prop,
the transient `activeTask` drag state, and the filter selections. -/
structure BoardState where
  tasks : List Task
  activeTask : Option Task
  fs : FilterState
deriving DecidableEq, Repr

/-- Resolution of the candidate target status in `handleDragEnd`: if
`over.id` is one of the four valid statuses it is the target; otherwise the
task with id `over.id` is looked up and its status is the target (`none`
when no such task exists, i.e. `if (!droppedOnTask) return`). -/
def resolveTargetStatus (tasks : List Task) (overId : String) : Option Status :=
  match statusOfId? overId with
  | some s => some s
  | none => (tasks.find? (fun t => decide (t.id = overId))).map Task.status

/-- The pure resolution part of `handleDragEnd` (lines up to the callback):
returns the move request to hand to `onTaskMove`, or `none` for every
silent-cancel / no-op path. -/
def resolveMove (tasks : List Task) (ev : DragEndEvent) : Option MoveCall :=
  match ev.overId with
  | none => none
  | some overId =>
    match tasks.find? (fun t => decide (t.id = ev.activeId)) with
    | none => none
    | some task =>
      match resolveTargetStatus tasks overId with
      | none => none
      | some newStatus =>
        if task.status = newStatus then none
        else some ⟨ev.activeId, newStatus, task.status⟩

/-- The whole `handleDragEnd` handler. Inputs: the board state, the event,
and the optional `onTaskMove` callback whose result may reject
(`Except.error`). Outputs: the state after the handler (it mutates state
only via `setActiveTask(null)`), the callback invocation performed (at most
one; `none` when no callback fired), and the message passed to
`console.error` by the catch block, if any. -/
def handleDragEnd (s : BoardState) (ev : DragEndEvent)
    (onTaskMove : Option (String → Status → Status → Except String Unit)) :
    BoardState × Option MoveCall × Option String :=
  let s1 : BoardState := { s with activeTask := none }
  match resolveMove s.tasks ev with
  | none => (s1, none, none)
  | some mc =>
    match onTaskMove with
    | none => (s1, none, none)
    | some cb =>
      match cb mc.taskId mc.newStatus mc.oldStatus with
      | Except.ok _ => (s1, some mc, none)
      | Except.error e => (s1, some mc, some ("Error moving task: " ++ e))

lemma find?_id_of_nodup (tasks : List Task) (t : Task)
    (hnd : (tasks.map Task.id).Nodup) (ht : t ∈ tasks) :
    tasks.find? (fun x => decide (x.id = t.id)) = some t := by
  induction tasks with
  | nil => cases ht
  | cons a l ih =>
      rw [List.map_cons, List.nodup_cons] at hnd
      rcases List.mem_cons.mp ht with h | h
      · subst h
        exact List.find?_cons_of_pos _ (by simp)
      · have hid : a.id ≠ t.id := by
          intro he
          exact hnd.1 (he ▸ List.mem_map_of_mem Task.id h)
        rw [List.find?_cons_of_neg _ (by simp [hid])]
        exact ih hnd.2 h

/-- The form state of AddTaskModal (title, description, priority, type,
assignee, estimate, selectedLabels useState hooks). -/
structure AddTaskForm where
  title : String
  description : String
  priority : Priority
  type : IssueType
  assignee : String
  estimate : Rat
  selectedLabels : List Label
deriving DecidableEq, Repr

/-- `handleSubmit` of AddTaskModal.tsx. `now` stands for `Date.now()` /
`new Date()`. The `alert('Title is required'); return` path is the
`Except.error` branch; `onAdd(newTask); onClose()` only happens on the
`Except.ok` branch. -/
def handleSubmit (status : Status) (form : AddTaskForm) (now : Nat) :
    Except String Task :=
  if jsTrim form.title = "" then
    Except.error "Title is required"
  else
    Except.ok
      { id := "task-" ++ toString now
        title := jsTrim form.title
        description := jsTrim form.description
        status := status
        priority := form.priority
        type := form.type
        assignee := if jsTrim form.assignee = "" then none else some (jsTrim form.assignee)
        reporter := "Current User"
        labels := form.selectedLabels
        comments := []
        createdAt := now
        updatedAt := now
        estimate := if form.estimate > 0 then some form.estimate else none
        timeSpent := some 0
        dueDate := none }

/-- `Partial<Task>` as passed to TaskModal's `handleUpdate`: `none` means the
key is not in the change set; for the optional Task fields, `some none`
means the key is present with value `undefined`. -/
structure PartialTask where
  id : Option String := none
  title : Option String := none
  description : Option String := none
  status : Option Status := none
  priority : Option Priority := none
  type : Option IssueType := none
  assignee : Option (Option String) := none
  reporter : Option String := none
  labels : Option (List Label) := none
  comments : Option (List Comment) := none
  createdAt : Option Nat := none
  updatedAt : Option Nat := none
  estimate : Option (Option Rat) := none
  timeSpent : Option (Option Rat) := none
  dueDate : Option (Option Nat) := none
deriving DecidableEq, Repr

/-- `handleUpdate` of TaskModal.tsx:
`{ ...editedTask, ...updates, updatedAt: new Date() }` — the spread keeps
every field of `editedTask` not present in `updates`, takes every field
present in `updates`, and the trailing literal key overwrites `updatedAt`
unconditionally (even when `updates` itself carries an `updatedAt`). -/
def handleUpdate (editedTask : Task) (updates : PartialTask) (now : Nat) :
    Task :=
  { id := updates.id.getD editedTask.id
    title := updates.title.getD editedTask.title
    description := updates.description.getD editedTask.description
    status := updates.status.getD editedTask.status
    priority := updates.priority.getD editedTask.priority
    type := updates.type.getD editedTask.type
    assignee := updates.assignee.getD editedTask.assignee
    reporter := updates.reporter.getD editedTask.reporter
    labels := updates.labels.getD editedTask.labels
    comments := updates.comments.getD editedTask.comments
    createdAt := updates.createdAt.getD editedTask.createdAt
    updatedAt := now
    estimate := updates.estimate.getD editedTask.estimate
    timeSpent := updates.timeSpent.getD editedTask.timeSpent
    dueDate := updates.dueDate.getD editedTask.dueDate }

/-! Concrete sample data used by counterexamples and witnesses. -/

/-- A fully populated concrete task. -/
def sampleTask : Task :=
  { id := "t1"
    title := "Fix login bug"
    description := ""
    status := Status.todo
    priority := Priority.medium
    type := IssueType.task
    assignee := none
    reporter := "Reporter"
    labels := []
    comments := []
    createdAt := 0
    updatedAt := 0
    estimate := none
    timeSpent := none
    dueDate := none }

/-- Filter state with every selector at its neutral value. -/
def allFilter : FilterState :=
  ⟨"", none, none, "all"⟩

/-- A task whose assignee is present but the empty string. -/
def emptyAssigneeTask : Task :=
  { sampleTask with assignee := some "" }

/-- Filter state whose assignee selector is "unassigned". -/
def unassignedFilter : FilterState :=
  ⟨"", none, none, "unassigned"⟩

lemma codePred_eq_amended (e f : Bool) (fs : FilterState) (t : Task) :
    (matchesSearch e fs.searchQuery t &&
      matchesPriority f fs.filterPriority t &&
      matchesType f fs.filterType t &&
      matchesAssignee f fs.filterAssignee t) =
    specFilterPredAmended e f fs t := by
  rw [matchesSearch_eq_spec]
  rfl

/-- Claim C1, counterexample: the claimed inclusion predicate is violated.
With the assignee selector "unassigned" and a task whose `assignee` is the
empty string (present, hence not absent), the code includes the task in
`filteredTasks`, while the claim's predicate (which requires `assignee`
absent) evaluates to false — so "included if and only if all clauses hold"
fails. -/
theorem c1_counterexample :
    emptyAssigneeTask ∈
      filteredTasks true true unassignedFilter [emptyAssigneeTask] ∧
    specFilterPred true true unassignedFilter emptyAssigneeTask = false := by
  decide

/-- Claim C1 (amended): for every task collection and filter state,
`filteredTasks` is an order-preserving subsequence of the input, and a task
is included if and only if all four clauses hold, where the "unassigned"
disjunct of the assignee clause accepts a task whose assignee is absent or
the empty string (JS truthiness of `!task.assignee`). -/
theorem c1_filteredTasks_amended (enableSearch enableFilters : Bool)
    (fs : FilterState) (tasks : List Task) :
    (filteredTasks enableSearch enableFilters fs tasks).Sublist tasks ∧
    ∀ t : Task,
      t ∈ filteredTasks enableSearch enableFilters fs tasks ↔
        t ∈ tasks ∧
          specFilterPredAmended enableSearch enableFilters fs t = true := by
  constructor
  · exact List.filter_sublist _
  · intro t
    simp only [filteredTasks, List.mem_filter, codePred_eq_amended]

/-- Claim C2, counterexample: with host-supplied columns consisting of the
single column "todo", a task whose status is "done" is not excluded from
all groups — `tasksByStatus` ignores the configured columns and still
places the task in the group of its own status. -/
theorem c2_counterexample :
    Status.done ∉
      (boardColumns (some [⟨Status.todo, "To Do"⟩])).map ColumnDef.id ∧
    { sampleTask with status := Status.done } ∈
      (tasksByStatus [{ sampleTask with status := Status.done }]).get
        Status.done := by
  decide

/-- Claim C2 (amended): `tasksByStatus` does not consult the configured
columns. It always produces one group per fixed status (todo, in-progress,
in-review, done); the group of status `s` is exactly the ordered sublist of
the filtered tasks whose status is `s` — so every task appears in exactly
one group, the one for its own status, even when that status is not among
the configured columns — and the sum of the four group sizes equals the
number of filtered tasks. -/
theorem c2_tasksByStatus_amended (filtered : List Task) :
    (∀ s : Status,
      (tasksByStatus filtered).get s =
        filtered.filter (fun t => decide (t.status = s))) ∧
    (tasksByStatus filtered).total = filtered.length := by
  constructor
  · intro s
    rw [tasksByStatus, get_foldl_pushTask]
    cases s <;> simp [Grouped.get]
  · rw [tasksByStatus, total_foldl_pushTask]
    simp [Grouped.total]

/-- Claim C3: when the resolved target status equals the dragged task's
current status, the drag end has no side effect — no `onTaskMove` invocation,
no error, and the only state change is clearing the transient drag state. -/
theorem c3_same_status_noop (s : BoardState) (ev : DragEndEvent)
    (cb : Option (String → Status → Status → Except String Unit))
    (task : Task) (oid : String)
    (hover : ev.overId = some oid)
    (hfind : s.tasks.find? (fun t => decide (t.id = ev.activeId)) = some task)
    (htarget : resolveTargetStatus s.tasks oid = some task.status) :
    handleDragEnd s ev cb = ({ s with activeTask := none }, none, none) := by
  have hres : resolveMove s.tasks ev = none := by
    simp only [resolveMove, hover, hfind, htarget]
    simp
  simp [handleDragEnd, hres]

/-- Witness for C3: a concrete task with status "todo" dropped onto the
"todo" column produces no move request. -/
theorem c3_same_status_noop_witness :
    handleDragEnd ⟨[sampleTask], none, allFilter⟩ ⟨"t1", some "todo"⟩ none =
      ({ tasks := [sampleTask], activeTask := none, fs := allFilter },
        none, none) :=
  c3_same_status_noop ⟨[sampleTask], none, allFilter⟩ ⟨"t1", some "todo"⟩
    none sampleTask "todo" rfl (by decide) (by decide)

/-- Claim C4: dropping task `t1` onto another task `t2` whose id is not a
column (status) id resolves the target to `t2`'s current status, and when
that status differs from `t1`'s, the provided `onTaskMove` is invoked
exactly once with `(t1.id, t2.status, t1.status)`. -/
theorem c4_drop_on_task (s : BoardState) (t1 t2 : Task)
    (cb : String → Status → Status → Except String Unit)
    (hnd : (s.tasks.map Task.id).Nodup)
    (h1 : t1 ∈ s.tasks) (h2 : t2 ∈ s.tasks)
    (hcol : statusOfId? t2.id = none)
    (hne : t1.status ≠ t2.status) :
    resolveTargetStatus s.tasks t2.id = some t2.status ∧
    (handleDragEnd s ⟨t1.id, some t2.id⟩ (some cb)).2.1 =
      some ⟨t1.id, t2.status, t1.status⟩ := by
  have hf1 := find?_id_of_nodup s.tasks t1 hnd h1
  have hf2 := find?_id_of_nodup s.tasks t2 hnd h2
  have htarget : resolveTargetStatus s.tasks t2.id = some t2.status := by
    simp [resolveTargetStatus, hcol, hf2]
  have hres : resolveMove s.tasks ⟨t1.id, some t2.id⟩ =
      some ⟨t1.id, t2.status, t1.status⟩ := by
    simp only [resolveMove, hf1, htarget]
    simp [hne]
  refine ⟨htarget, ?_⟩
  cases hcb : cb t1.id t2.status t1.status <;>
    simp [handleDragEnd, hres, hcb]

/-- Witness for C4: dropping "t1" (status todo) onto task "t2" (status done)
invokes the move callback with ("t1", done, todo). -/
theorem c4_drop_on_task_witness :
    resolveTargetStatus
        [sampleTask, { sampleTask with id := "t2", status := Status.done }]
        "t2" = some Status.done ∧
    (handleDragEnd
        ⟨[sampleTask, { sampleTask with id := "t2", status := Status.done }],
          none, allFilter⟩
        ⟨"t1", some "t2"⟩ (some (fun _ _ _ => Except.ok ()))).2.1 =
      some ⟨"t1", Status.done, Status.todo⟩ :=
  c4_drop_on_task
    ⟨[sampleTask, { sampleTask with id := "t2", status := Status.done }],
      none, allFilter⟩
    sampleTask { sampleTask with id := "t2", status := Status.done }
    (fun _ _ _ => Except.ok ())
    (by decide) (by decide) (by decide) (by decide) (by decide)

/-- Claim C5, counterexample: a drop id that matches neither a configured
column id nor any task id is not always a silent cancel. With configured
columns reduced to the single column "todo" and a lone task "t1" of status
todo, the drop id "done" matches no configured column id and no task id,
yet `handleDragEnd` invokes the move callback. The code resolves the drop
id against the hard-coded `validStatuses` list, not against the configured
columns. -/
theorem c5_counterexample :
    "done" ∉
      (boardColumns (some [⟨Status.todo, "To Do"⟩])).map
        (fun c => Status.id c.id) ∧
    [sampleTask].find? (fun t => decide (t.id = "done")) = none ∧
    (handleDragEnd ⟨[sampleTask], none, allFilter⟩ ⟨"t1", some "done"⟩
        (some (fun _ _ _ => Except.ok ()))).2.1 =
      some ⟨"t1", Status.done, Status.todo⟩ := by
  decide

/-- Claim C5 (amended): when there is no drop target, or the drop target id
matches neither one of the four fixed status ids nor any task's id, the
drag ends as a silent cancel: no callback is invoked, no error is reported,
and the state is unchanged except for clearing the transient drag state (in
particular the filter selections and the task collection are untouched). -/
theorem c5_unresolved_target_amended (s : BoardState) (ev : DragEndEvent)
    (cb : Option (String → Status → Status → Except String Unit))
    (h : ev.overId = none ∨
      ∃ oid, ev.overId = some oid ∧ statusOfId? oid = none ∧
        s.tasks.find? (fun t => decide (t.id = oid)) = none) :
    handleDragEnd s ev cb = ({ s with activeTask := none }, none, none) := by
  have hres : resolveMove s.tasks ev = none := by
    rcases h with h | ⟨oid, hov, hcol, hfind⟩
    · simp [resolveMove, h]
    · simp only [resolveMove, hov]
      cases hfd : s.tasks.find? (fun t => decide (t.id = ev.activeId)) with
      | none => simp
      | some task =>
          have htarget : resolveTargetStatus s.tasks oid = none := by
            simp [resolveTargetStatus, hcol, hfind]
          simp [htarget]
  simp [handleDragEnd, hres]

/-- Witness for C5 (amended): a drag released outside every droppable
(`over` null) is a pure cancel. -/
theorem c5_unresolved_target_amended_witness :
    handleDragEnd ⟨[sampleTask], some sampleTask, allFilter⟩ ⟨"t1", none⟩
        (some (fun _ _ _ => Except.ok ())) =
      ({ tasks := [sampleTask], activeTask := none, fs := allFilter },
        none, none) :=
  c5_unresolved_target_amended ⟨[sampleTask], some sampleTask, allFilter⟩
    ⟨"t1", none⟩ (some (fun _ _ _ => Except.ok ())) (Or.inl rfl)

/-- Claim C6: when the move callback rejects, the failure is caught and
reported (the catch block's console message) and the component performs no
state mutation beyond clearing the drag state: the task collection and the
filter selections after the handler are exactly those before it. -/
theorem c6_callback_failure (s : BoardState) (ev : DragEndEvent)
    (mc : MoveCall)
    (cb : String → Status → Status → Except String Unit) (e : String)
    (hres : resolveMove s.tasks ev = some mc)
    (herr : cb mc.taskId mc.newStatus mc.oldStatus = Except.error e) :
    handleDragEnd s ev (some cb) =
      ({ s with activeTask := none }, some mc,
        some ("Error moving task: " ++ e)) ∧
    (handleDragEnd s ev (some cb)).1.tasks = s.tasks ∧
    (handleDragEnd s ev (some cb)).1.fs = s.fs := by
  have h : handleDragEnd s ev (some cb) =
      ({ s with activeTask := none }, some mc,
        some ("Error moving task: " ++ e)) := by
    simp [handleDragEnd, hres, herr]
  exact ⟨h, by rw [h], by rw [h]⟩

/-- Witness for C6: a rejecting callback on a concrete cross-column move
leaves the collection and filters as given by the props. -/
theorem c6_callback_failure_witness :
    handleDragEnd ⟨[sampleTask], none, allFilter⟩ ⟨"t1", some "done"⟩
        (some (fun _ _ _ => Except.error "network")) =
      ({ tasks := [sampleTask], activeTask := none, fs := allFilter },
        some ⟨"t1", Status.done, Status.todo⟩,
        some "Error moving task: network") ∧
    (handleDragEnd ⟨[sampleTask], none, allFilter⟩ ⟨"t1", some "done"⟩
        (some (fun _ _ _ => Except.error "network"))).1.tasks =
      [sampleTask] ∧
    (handleDragEnd ⟨[sampleTask], none, allFilter⟩ ⟨"t1", some "done"⟩
        (some (fun _ _ _ => Except.error "network"))).1.fs = allFilter :=
  c6_callback_failure ⟨[sampleTask], none, allFilter⟩ ⟨"t1", some "done"⟩
    ⟨"t1", Status.done, Status.todo⟩
    (fun _ _ _ => Except.error "network") "network" (by decide) rfl

/-- Claim C7, counterexample: the claim as stated fails for a task that is
already in progress. Dropping task "t1" (status in-progress) onto the
column "in-progress" invokes no callback at all (same-column drops are
suppressed), while the claim demands an invocation with
(taskId, "in-progress", original status). -/
theorem c7_counterexample :
    (handleDragEnd
        ⟨[{ sampleTask with status := Status.inProgress }], none, allFilter⟩
        ⟨"t1", some "in-progress"⟩
        (some (fun _ _ _ => Except.ok ()))).2.1 = none ∧
    (handleDragEnd
        ⟨[{ sampleTask with status := Status.inProgress }], none, allFilter⟩
        ⟨"t1", some "in-progress"⟩
        (some (fun _ _ _ => Except.ok ()))).2.1 ≠
      some ⟨"t1", Status.inProgress, Status.inProgress⟩ := by
  decide

/-- Claim C7 (amended): dropping a dragged task onto the column whose id is
"in-progress" invokes the provided `onTaskMove` with
(taskId, in-progress, original status), provided the task's original status
is not already "in-progress" (same-column drops are no-ops). -/
theorem c7_drop_on_in_progress_amended (s : BoardState) (ev : DragEndEvent)
    (cb : String → Status → Status → Except String Unit) (task : Task)
    (hov : ev.overId = some "in-progress")
    (hfind : s.tasks.find? (fun t => decide (t.id = ev.activeId)) = some task)
    (hne : task.status ≠ Status.inProgress) :
    (handleDragEnd s ev (some cb)).2.1 =
      some ⟨ev.activeId, Status.inProgress, task.status⟩ := by
  have hsid : statusOfId? "in-progress" = some Status.inProgress := by
    decide
  have htarget : resolveTargetStatus s.tasks "in-progress" =
      some Status.inProgress := by
    simp [resolveTargetStatus, hsid]
  have hres : resolveMove s.tasks ev =
      some ⟨ev.activeId, Status.inProgress, task.status⟩ := by
    simp only [resolveMove, hov, hfind, htarget]
    simp [hne]
  cases hcb : cb ev.activeId Status.inProgress task.status <;>
    simp [handleDragEnd, hres, hcb]

/-- Witness for C7 (amended): a "todo" task dropped on the "in-progress"
column requests the move (t1, in-progress, todo). -/
theorem c7_drop_on_in_progress_amended_witness :
    (handleDragEnd ⟨[sampleTask], none, allFilter⟩
        ⟨"t1", some "in-progress"⟩
        (some (fun _ _ _ => Except.ok ()))).2.1 =
      some ⟨"t1", Status.inProgress, Status.todo⟩ :=
  c7_drop_on_in_progress_amended ⟨[sampleTask], none, allFilter⟩
    ⟨"t1", some "in-progress"⟩ (fun _ _ _ => Except.ok ()) sampleTask
    rfl (by decide) (by decide)

/-- Claim C8: a create-task submission whose title trims to the empty string
is rejected locally: `handleSubmit` ends in the synchronous failure branch
("Title is required"), so `onAdd` — and hence `onTaskCreate` — is never
reached and no task is produced. -/
theorem c8_empty_title_rejected (status : Status) (form : AddTaskForm)
    (now : Nat) (h : jsTrim form.title = "") :
    handleSubmit status form now = Except.error "Title is required" := by
  simp [handleSubmit, h]

/-- A concrete AddTaskModal form whose title is whitespace-only. -/
def blankTitleForm : AddTaskForm :=
  { title := "   "
    description := "desc"
    priority := Priority.medium
    type := IssueType.task
    assignee := "alice"
    estimate := 2
    selectedLabels := [] }

/-- Witness for C8: the whitespace-only title "   " is rejected. -/
theorem c8_empty_title_rejected_witness :
    handleSubmit Status.todo blankTitleForm 7 =
      Except.error "Title is required" :=
  c8_empty_title_rejected Status.todo blankTitleForm 7 (by decide)

/-- Claim C9: every task emitted by the create modal's submit path has the
trimmed (non-empty) entered title, the trimmed entered description, no
assignee when the entered assignee trims to empty, no estimate unless the
entered estimate is strictly positive, timeSpent 0, no comments, and the
status the creation was initiated from. -/
theorem c9_created_task_fields (status : Status) (form : AddTaskForm)
    (now : Nat) (h : jsTrim form.title ≠ "") :
    ∃ task : Task,
      handleSubmit status form now = Except.ok task ∧
      task.title = jsTrim form.title ∧
      task.title ≠ "" ∧
      task.description = jsTrim form.description ∧
      (jsTrim form.assignee = "" → task.assignee = none) ∧
      (¬ 0 < form.estimate → task.estimate = none) ∧
      task.timeSpent = some 0 ∧
      task.comments = [] ∧
      task.status = status := by
  rw [handleSubmit, if_neg h]
  refine ⟨_, rfl, rfl, h, rfl, ?_, ?_, rfl, rfl, rfl⟩
  · intro ha
    simp [ha]
  · intro he
    simp [he]

/-- A concrete AddTaskModal form with padded fields, blank assignee and a
zero estimate. -/
def paddedForm : AddTaskForm :=
  { title := "  New task  "
    description := " d "
    priority := Priority.high
    type := IssueType.bug
    assignee := "  "
    estimate := 0
    selectedLabels := [] }

/-- Witness for C9: submitting `paddedForm` from the "in-review" column
yields a task with trimmed title "New task", trimmed description, no
assignee, no estimate, zero timeSpent, no comments and status in-review. -/
theorem c9_created_task_fields_witness :
    ∃ task : Task,
      handleSubmit Status.inReview paddedForm 7 = Except.ok task ∧
      task.title = jsTrim paddedForm.title ∧
      task.title ≠ "" ∧
      task.description = jsTrim paddedForm.description ∧
      (jsTrim paddedForm.assignee = "" → task.assignee = none) ∧
      (¬ 0 < paddedForm.estimate → task.estimate = none) ∧
      task.timeSpent = some 0 ∧
      task.comments = [] ∧
      task.status = Status.inReview :=
  c9_created_task_fields Status.inReview paddedForm 7 (by decide)

/-- Claim C10: `handleUpdate` always stamps `updatedAt` with the fresh
timestamp (even when the change set itself carries an `updatedAt`), applies
exactly the fields present in the change set, and preserves every other
field of the edited task. -/
theorem c10_handleUpdate_frame (t : Task) (u : PartialTask) (now : Nat) :
    (handleUpdate t u now).updatedAt = now ∧
    (∀ v, u.updatedAt = some v → (handleUpdate t u now).updatedAt = now) ∧
    (u.id = none → (handleUpdate t u now).id = t.id) ∧
    (∀ v, u.id = some v → (handleUpdate t u now).id = v) ∧
    (u.title = none → (handleUpdate t u now).title = t.title) ∧
    (∀ v, u.title = some v → (handleUpdate t u now).title = v) ∧
    (u.description = none →
      (handleUpdate t u now).description = t.description) ∧
    (∀ v, u.description = some v → (handleUpdate t u now).description = v) ∧
    (u.status = none → (handleUpdate t u now).status = t.status) ∧
    (∀ v, u.status = some v → (handleUpdate t u now).status = v) ∧
    (u.priority = none → (handleUpdate t u now).priority = t.priority) ∧
    (∀ v, u.priority = some v → (handleUpdate t u now).priority = v) ∧
    (u.type = none → (handleUpdate t u now).type = t.type) ∧
    (∀ v, u.type = some v → (handleUpdate t u now).type = v) ∧
    (u.assignee = none → (handleUpdate t u now).assignee = t.assignee) ∧
    (∀ v, u.assignee = some v → (handleUpdate t u now).assignee = v) ∧
    (u.reporter = none → (handleUpdate t u now).reporter = t.reporter) ∧
    (∀ v, u.reporter = some v → (handleUpdate t u now).reporter = v) ∧
    (u.labels = none → (handleUpdate t u now).labels = t.labels) ∧
    (∀ v, u.labels = some v → (handleUpdate t u now).labels = v) ∧
    (u.comments = none → (handleUpdate t u now).comments = t.comments) ∧
    (∀ v, u.comments = some v → (handleUpdate t u now).comments = v) ∧
    (u.createdAt = none → (handleUpdate t u now).createdAt = t.createdAt) ∧
    (∀ v, u.createdAt = some v → (handleUpdate t u now).createdAt = v) ∧
    (u.estimate = none → (handleUpdate t u now).estimate = t.estimate) ∧
    (∀ v, u.estimate = some v → (handleUpdate t u now).estimate = v) ∧
    (u.timeSpent = none → (handleUpdate t u now).timeSpent = t.timeSpent) ∧
    (∀ v, u.timeSpent = some v → (handleUpdate t u now).timeSpent = v) ∧
    (u.dueDate = none → (handleUpdate t u now).dueDate = t.dueDate) ∧
    (∀ v, u.dueDate = some v → (handleUpdate t u now).dueDate = v) := by
  repeat' apply And.intro
  all_goals
    first
    | rfl
    | (intro h
       simp [handleUpdate, h])
    | (intro v h
       simp [handleUpdate, h])

/-- A concrete change set touching only the status (the status select of the
detail modal). -/
def statusOnlyUpdate : PartialTask :=
  { status := some Status.done }

/-- Witness for C10: updating only the status of `sampleTask` keeps its
title, stamps `updatedAt` with the fresh time, and applies the new
status. -/
theorem c10_handleUpdate_frame_witness :
    (handleUpdate sampleTask statusOnlyUpdate 9).updatedAt = 9 ∧
    (handleUpdate sampleTask statusOnlyUpdate 9).title = sampleTask.title ∧
    (handleUpdate sampleTask statusOnlyUpdate 9).status = Status.done ∧
    (handleUpdate sampleTask statusOnlyUpdate 9).assignee =
      sampleTask.assignee := by
  obtain ⟨h1, -, -, -, h5, -, -, -, -, h10, -, -, -, -, h15, -, -, -, -, -,
    -, -, -, -, -, -, -, -, -, -⟩ :=
    c10_handleUpdate_frame sampleTask statusOnlyUpdate 9
  exact ⟨h1, h5 rfl, h10 Status.done rfl, h15 rfl⟩

end Kanban
